import Mathlib

/-!
Shallow embedding of the booking/payment core of the `bot` hotel-booking
server (Express + Sequelize, `src/server.js` and the unnamed companion
listing).  The persistent store is modelled as a list of rows keyed by
primary key; each HTTP handler or helper function becomes a pure Lean
function from an explicit store (plus oracles for the external services:
inventory client, payment gateway, language model) to a result and an
updated store.  Dates are modelled as integer day counts, since the only
date arithmetic in the source is `checkOutDate = checkInDate + nights`
days.  JavaScript object fields that may be absent are modelled with
`Option`.
-/

namespace Bot

/-- A row of the `Booking` table (`sequelize.define('Booking', ...)`):
primary key `bookingId`, owner `userId` (the source stores the booking
email there), `roomId`, check-in/check-out dates as day counts,
`totalAmount`, and the `isPaid` flag. -/
structure BookingRec where
  bookingId : String
  userId : String
  roomId : Int
  checkInDate : Int
  checkOutDate : Int
  totalAmount : Int
  isPaid : Bool
deriving DecidableEq, Repr

/-- The payload the external inventory service returns from
`POST https://bot9assignement.deno.dev/book`: `response.data` carries
`bookingId` and `totalPrice`. -/
structure InvResponse where
  bookingId : String
  totalPrice : Int
deriving DecidableEq, Repr

/-- Outcome of the `POST /book` handler: `res.json(response.data)` on
success, or the catch-all `res.status(500)` error. -/
inductive BookResult where
  | ok (payload : InvResponse)
  | err500
deriving DecidableEq, Repr

/-- Full observable outcome of one `POST /book` request: the HTTP result,
the booking store afterwards, and whether the external inventory call was
issued (in the source, `axios.post` is the first statement of the `try`
block, before any other check). -/
structure BookOutcome where
  result : BookResult
  store : List BookingRec
  inventoryCalled : Bool
deriving DecidableEq, Repr

/-- The `POST /book` handler (`src/server.js:106-135`).  The body is
destructured into `roomId, fullName, email, nights` with no validation;
the inventory call is issued immediately (its outcome is the oracle
argument `inv`, `none` meaning the call threw).  On success the handler
computes `checkInDate = now`, `checkOutDate = now + nights` and persists a
row with `userId := email` and `isPaid := false`; `Booking.create` throws
on a duplicate primary key, which the shared `catch` turns into a 500 with
the store untouched. -/
def bookOp (inv : Option InvResponse) (now : Int) (roomId : Int)
    (fullName email : String) (nights : Int) (store : List BookingRec) :
    BookOutcome :=
  match inv with
  | none => ⟨.err500, store, true⟩
  | some resp =>
      if store.any (fun b => b.bookingId == resp.bookingId) then
        ⟨.err500, store, true⟩
      else
        ⟨.ok resp,
         store ++ [{ bookingId := resp.bookingId
                     userId := email
                     roomId := roomId
                     checkInDate := now
                     checkOutDate := now + nights
                     totalAmount := resp.totalPrice
                     isPaid := false }],
         true⟩

/-- The simulated gateway response resolved inside `processPayment`:
`success`, a `transactionId`, and a fixed message. -/
structure GatewayResponse where
  success : Bool
  transactionId : String
deriving DecidableEq, Repr

/-- The record `processPayment` returns.  The source's success branch
returns an object literal with only `status` and `message` keys (the
transaction id is interpolated into the message string); `transactionId`
is therefore an `Option` that the source never sets. -/
structure PaymentResult where
  status : String
  message : String
  transactionId : Option String
deriving DecidableEq, Repr

/-- The `processPayment` helper (`src/server.js:297-325`).  The gateway
outcome is the oracle argument `gw`.  On `gw.success` it runs
`Booking.update({isPaid: true}, {where: {bookingId}})` — a keyed update
touching every row whose `bookingId` matches and nothing else — and
returns a success record whose message interpolates `amount`, `method`
and the gateway transaction id.  On failure it returns a failure record
and leaves the store alone. -/
def processPayment (gw : GatewayResponse) (bookingId : String)
    (amount : Int) (method : String) (store : List BookingRec) :
    PaymentResult × List BookingRec :=
  if gw.success then
    ({ status := "success"
       message := "Payment of $" ++ toString amount ++ " processed via "
         ++ method ++ ". Transaction ID: " ++ gw.transactionId
       transactionId := none },
     store.map (fun b =>
       if b.bookingId == bookingId then { b with isPaid := true } else b))
  else
    ({ status := "failed"
       message := "Payment processing failed. Please try again."
       transactionId := none },
     store)

/-- Outcome of a row-level endpoint: `200` with a success message, or
`404 Booking not found`. -/
inductive RowResult where
  | ok
  | notFound
deriving DecidableEq, Repr

/-- `Booking.findOne({where: {bookingId}})`: first row matching the
primary key. -/
def findBooking (bookingId : String) (store : List BookingRec) :
    Option BookingRec :=
  store.find? (fun b => b.bookingId == bookingId)

/-- The `POST /cancel-booking` handler (unnamed listing, lines 630-644):
`Booking.findOne({where: {bookingId, userId}})` requires both the primary
key and the owner field to match; absent a match it answers 404 and the
store is untouched, otherwise `booking.destroy()` removes the found row
(deletion is by the instance's primary key). -/
def cancelBooking (bookingId userId : String) (store : List BookingRec) :
    RowResult × List BookingRec :=
  match store.find? (fun b => b.bookingId == bookingId && b.userId == userId) with
  | none => (.notFound, store)
  | some bk => (.ok, store.filter (fun b => !(b.bookingId == bk.bookingId)))

/-- The `DELETE /delete-booking/:bookingId` handler
(`src/server.js:354-368`): looks the row up by `bookingId` alone — no
`userId`, no authentication middleware — answers 404 when absent,
otherwise destroys the row and answers success. -/
def deleteBooking (bookingId : String) (store : List BookingRec) :
    RowResult × List BookingRec :=
  match store.find? (fun b => b.bookingId == bookingId) with
  | none => (.notFound, store)
  | some bk => (.ok, store.filter (fun b => !(b.bookingId == bk.bookingId)))

/-- One element of the JSON array stored in `Conversation.messages`:
`{role, content}`.  The source only ever pushes the role strings
`"user"` (the incoming message) and `"system"` (the assistant reply,
`messages.push({role: 'system', content: assistantMessage})`). -/
structure Turn where
  role : String
  content : String
deriving DecidableEq, Repr

/-- A row of the `User` table.  `POST /chat` creates it lazily with only
`userId` and `lastInteraction`, so `fullName`/`email` are optional. -/
structure UserRec where
  userId : String
  fullName : Option String
  email : Option String
  lastInteraction : Int
deriving DecidableEq, Repr

/-- A row of the `Conversation` table: `userId` plus the parsed
`messages` transcript (stored as JSON text in the source). -/
structure Conv where
  userId : String
  messages : List Turn
deriving DecidableEq, Repr

/-- The slice of database state `POST /chat` reads and writes. -/
structure ChatState where
  users : List UserRec
  convs : List Conv
deriving DecidableEq, Repr

/-- Outcome of one `POST /chat` request: 401 from `authenticateUser`,
`res.json({messages})` on success, or the catch-all 500. -/
inductive ChatResult where
  | unauthorized
  | ok (messages : List Turn)
  | err500
deriving DecidableEq, Repr

/-- The find-or-create-and-touch sequence at the top of `POST /chat`:
an existing `User` row gets `lastInteraction` refreshed, a missing one is
created with only `userId` and `lastInteraction`. -/
def touchUser (userId : String) (now : Int) (users : List UserRec) :
    List UserRec :=
  if users.any (fun u => u.userId == userId) then
    users.map (fun u =>
      if u.userId == userId then { u with lastInteraction := now } else u)
  else
    users ++ [⟨userId, none, none, now⟩]

/-- The `POST /chat` handler (`src/server.js:148-234`).  `authenticateUser`
rejects a falsy `userId` (modelled as the empty string) with 401.  The
handler then touches the `User` row, finds or creates the `Conversation`
row (empty transcript on creation), parses the stored transcript, appends
a `"user"` turn, and calls the model; the model call's outcome is the
oracle argument `reply` (`none` meaning the call threw, in which case the
`catch` answers 500 and the transcript is never written back).  On
success it appends the reply as a `"system"` turn and persists the whole
transcript with `conversation.update`. -/
def handleTurn (now : Int) (reply : Option String) (userId message : String)
    (st : ChatState) : ChatResult × ChatState :=
  if userId == "" then (.unauthorized, st)
  else
    let users := touchUser userId now st.users
    let convs :=
      if st.convs.any (fun c => c.userId == userId) then st.convs
      else st.convs ++ [⟨userId, []⟩]
    let current :=
      ((convs.find? (fun c => c.userId == userId)).map Conv.messages).getD []
    let msgs := current ++ [⟨"user", message⟩]
    match reply with
    | none => (.err500, ⟨users, convs⟩)
    | some r =>
        let msgs2 := msgs ++ [⟨"system", r⟩]
        (.ok msgs2,
         ⟨users,
          convs.map (fun c =>
            if c.userId == userId then ⟨c.userId, msgs2⟩ else c)⟩)

/-- The transcript currently persisted for `userId` (empty when the user
has no `Conversation` row yet). -/
def transcriptOf (userId : String) (st : ChatState) : List Turn :=
  ((st.convs.find? (fun c => c.userId == userId)).map Conv.messages).getD []

/-- Run `handleTurn` sequentially over a list of (message, model-reply)
pairs, every model call succeeding; the clock advances between calls. -/
def runChats (userId : String) (turns : List (String × String)) (now : Int)
    (st : ChatState) : ChatState :=
  match turns with
  | [] => st
  | (msg, r) :: rest =>
      runChats userId rest (now + 1) (handleTurn now (some r) userId msg st).2

/-! Theorems -/

/-- C1: when the external inventory call succeeds with `{bookingId,
totalPrice}` and local persistence succeeds (the returned `bookingId` is
not already a primary key in the store), a Booking row is appended whose
`bookingId` is the returned one, whose `roomId` is the request's, whose
`totalAmount` equals the returned `totalPrice`, whose `isPaid` is false,
and whose `checkOutDate - checkInDate` is exactly `nights` days. -/
theorem book_success_persists_row (inv : InvResponse) (now roomId : Int)
    (fullName email : String) (nights : Int) (store : List BookingRec)
    (hfresh : store.any (fun b => b.bookingId == inv.bookingId) = false) :
    ∃ b, (bookOp (some inv) now roomId fullName email nights store).store
        = store ++ [b] ∧
      b.bookingId = inv.bookingId ∧ b.roomId = roomId ∧
      b.totalAmount = inv.totalPrice ∧ b.isPaid = false ∧
      b.checkOutDate - b.checkInDate = nights := by
  refine ⟨{ bookingId := inv.bookingId, userId := email, roomId := roomId,
            checkInDate := now, checkOutDate := now + nights,
            totalAmount := inv.totalPrice, isPaid := false },
    ?_, rfl, rfl, rfl, rfl, show now + nights - now = nights by omega⟩
  simp [bookOp, hfresh]

/-- Witness for C1: the §8 scenario — room 5, three nights, stub
inventory returning bookingId "X1" and total price 300, empty store. -/
theorem book_success_persists_row_witness :
    ([] : List BookingRec).any (fun b => b.bookingId == "X1") = false ∧
    ∃ b, (bookOp (some ⟨"X1", 300⟩) 0 5 "A B" "a@b.com" 3 []).store
        = [] ++ [b] ∧
      b.bookingId = "X1" ∧ b.roomId = 5 ∧ b.totalAmount = 300 ∧
      b.isPaid = false ∧ b.checkOutDate - b.checkInDate = 3 :=
  ⟨rfl, book_success_persists_row ⟨"X1", 300⟩ 0 5 "A B" "a@b.com" 3 [] rfl⟩

/-- C3: when the external inventory call fails, `POST /book` answers 500,
creates no Booking row, and leaves the store exactly as it was. -/
theorem book_upstream_failure_no_row (now roomId : Int)
    (fullName email : String) (nights : Int) (store : List BookingRec) :
    bookOp none now roomId fullName email nights store
      = ⟨.err500, store, true⟩ := rfl

/-- C2: `processPayment` leaves the store untouched when the gateway
reports failure, marks every row with the given `bookingId` paid when the
gateway reports success, and is monotone on `isPaid`: any row already
paid stays paid (with the same key) after any payment attempt, successful
or failed. -/
theorem processPayment_isPaid_flag (gw : GatewayResponse)
    (bookingId : String) (amount : Int) (method : String)
    (store : List BookingRec) :
    (gw.success = false →
      (processPayment gw bookingId amount method store).2 = store) ∧
    (gw.success = true →
      ∀ b ∈ (processPayment gw bookingId amount method store).2,
        b.bookingId = bookingId → b.isPaid = true) ∧
    (∀ b ∈ store, b.isPaid = true →
      ∃ b' ∈ (processPayment gw bookingId amount method store).2,
        b'.bookingId = b.bookingId ∧ b'.isPaid = true) := by
  refine ⟨fun h => by simp [processPayment, h], fun h b hb hid => ?_, ?_⟩
  · simp only [processPayment, h, if_true] at hb
    obtain ⟨a, ha, hfa⟩ := List.mem_map.mp hb
    by_cases had : (a.bookingId == bookingId) = true
    · rw [← hfa]
      simp [had]
    · rw [← hfa] at hid ⊢
      simp only [had, if_false] at hid ⊢
      exact absurd (beq_iff_eq.mpr hid) (by simp [had])
  · intro b hb hp
    by_cases hgw : gw.success = true
    · refine ⟨if b.bookingId == bookingId then { b with isPaid := true } else b,
        ?_, ?_, ?_⟩
      · simp only [processPayment, hgw, if_true]
        exact List.mem_map_of_mem _ hb
      · by_cases hid : (b.bookingId == bookingId) = true <;> simp [hid]
      · by_cases hid : (b.bookingId == bookingId) = true <;> simp [hid, hp]
    · have hgw' : gw.success = false := by
        cases h : gw.success
        · rfl
        · exact absurd h hgw
      exact ⟨b, by simp [processPayment, hgw', hb], rfl, hp⟩

/-- Witness for C2: a failed gateway attempt against an already-paid
booking leaves the one-row store unchanged. -/
theorem processPayment_isPaid_flag_witness :
    (GatewayResponse.mk false "T1").success = false ∧
    (processPayment ⟨false, "T1"⟩ "X1" 300 "credit_card"
        [⟨"X1", "a@b.com", 5, 0, 3, 300, true⟩]).2
      = [⟨"X1", "a@b.com", 5, 0, 3, 300, true⟩] :=
  ⟨rfl, (processPayment_isPaid_flag ⟨false, "T1"⟩ "X1" 300 "credit_card"
    [⟨"X1", "a@b.com", 5, 0, 3, 300, true⟩]).1 rfl⟩

/-- C6 counterexample: with the gateway forced to succeed on booking
"X1", the value `processPayment` returns has `status = "success"` but its
`transactionId` field is absent (`none`): the source's success branch
returns an object with only `status` and `message` keys, so the claimed
non-empty `transactionId` field does not exist. -/
theorem processPayment_no_transactionId_field :
    (processPayment ⟨true, "TXN9"⟩ "X1" 300 "credit_card"
        [⟨"X1", "a@b.com", 5, 0, 3, 300, false⟩]).1.status = "success" ∧
    (processPayment ⟨true, "TXN9"⟩ "X1" 300 "credit_card"
        [⟨"X1", "a@b.com", 5, 0, 3, 300, false⟩]).1.transactionId = none :=
  ⟨rfl, rfl⟩

/-- C6 amended: when the gateway reports success, `processPayment`
returns a record with `status = "success"` and a message embedding the
amount, the method, and the gateway transaction id — but no separate
`transactionId` field (the field is `none`); the booking rows matching
`bookingId` are marked paid. -/
theorem processPayment_success_result (gw : GatewayResponse)
    (bookingId : String) (amount : Int) (method : String)
    (store : List BookingRec) (h : gw.success = true) :
    (processPayment gw bookingId amount method store).1.status = "success" ∧
    (processPayment gw bookingId amount method store).1.transactionId = none ∧
    (processPayment gw bookingId amount method store).1.message
      = "Payment of $" ++ toString amount ++ " processed via " ++ method
        ++ ". Transaction ID: " ++ gw.transactionId ∧
    ∀ b ∈ (processPayment gw bookingId amount method store).2,
      b.bookingId = bookingId → b.isPaid = true := by
  refine ⟨by simp [processPayment, h], by simp [processPayment, h],
    by simp [processPayment, h], fun b hb hid => ?_⟩
  simp only [processPayment, h, if_true] at hb
  obtain ⟨a, ha, hfa⟩ := List.mem_map.mp hb
  by_cases had : (a.bookingId == bookingId) = true
  · rw [← hfa]; simp [had]
  · rw [← hfa] at hid ⊢
    simp only [had, if_false] at hid ⊢
    exact absurd (beq_iff_eq.mpr hid) (by simp [had])

/-- Witness for C6's amended theorem: the §8 scenario with the gateway
forced to succeed. -/
theorem processPayment_success_result_witness :
    (GatewayResponse.mk true "TXN9").success = true ∧
    (processPayment ⟨true, "TXN9"⟩ "X1" 300 "credit_card"
        [⟨"X1", "a@b.com", 5, 0, 3, 300, false⟩]).1.status = "success" :=
  ⟨rfl, (processPayment_success_result ⟨true, "TXN9"⟩ "X1" 300 "credit_card"
    [⟨"X1", "a@b.com", 5, 0, 3, 300, false⟩] rfl).1⟩

/-- C8: when no row carries the requested `bookingId`, a successful
payment attempt is a silent no-op on the store — the keyed update touches
zero rows — and the returned status is still "success", not a not-found
error. -/
theorem processPayment_missing_booking_noop (gw : GatewayResponse)
    (bookingId : String) (amount : Int) (method : String)
    (store : List BookingRec) (h : gw.success = true)
    (habsent : ∀ b ∈ store, b.bookingId ≠ bookingId) :
    (processPayment gw bookingId amount method store).2 = store ∧
    (processPayment gw bookingId amount method store).1.status
      = "success" := by
  refine ⟨?_, by simp [processPayment, h]⟩
  simp only [processPayment, h, if_true]
  induction store with
  | nil => rfl
  | cons a rest ih =>
      have ha : (a.bookingId == bookingId) = false :=
        beq_eq_false_iff_ne.mpr (habsent a (List.mem_cons_self a rest))
      simp only [List.map_cons, ha, Bool.false_eq_true, if_false,
        List.cons.injEq, true_and]
      exact ih (fun b hb => habsent b (List.mem_cons_of_mem a hb))

/-- Witness for C8: gateway success against a store holding only booking
"Y2" while paying "X1" changes nothing and still reports success. -/
theorem processPayment_missing_booking_noop_witness :
    (GatewayResponse.mk true "T2").success = true ∧
    (∀ b ∈ [(⟨"Y2", "c@d.com", 7, 0, 2, 200, false⟩ : BookingRec)],
      b.bookingId ≠ "X1") ∧
    (processPayment ⟨true, "T2"⟩ "X1" 300 "paypal"
        [⟨"Y2", "c@d.com", 7, 0, 2, 200, false⟩]).2
      = [⟨"Y2", "c@d.com", 7, 0, 2, 200, false⟩] ∧
    (processPayment ⟨true, "T2"⟩ "X1" 300 "paypal"
        [⟨"Y2", "c@d.com", 7, 0, 2, 200, false⟩]).1.status = "success" :=
  ⟨rfl, by decide,
    (processPayment_missing_booking_noop ⟨true, "T2"⟩ "X1" 300 "paypal"
      [⟨"Y2", "c@d.com", 7, 0, 2, 200, false⟩] rfl (by decide)).1,
    (processPayment_missing_booking_noop ⟨true, "T2"⟩ "X1" 300 "paypal"
      [⟨"Y2", "c@d.com", 7, 0, 2, 200, false⟩] rfl (by decide)).2⟩

/-- C9: `amount` and `method` never influence the payment status, the
(absent) transaction-id field, or the resulting booking store — two calls
with the same booking id, gateway outcome, and starting store agree on
all three however the amount and method differ; only the human-readable
message can change. -/
theorem processPayment_amount_method_irrelevant (gw : GatewayResponse)
    (bookingId : String) (a1 a2 : Int) (m1 m2 : String)
    (store : List BookingRec) :
    (processPayment gw bookingId a1 m1 store).1.status
      = (processPayment gw bookingId a2 m2 store).1.status ∧
    (processPayment gw bookingId a1 m1 store).1.transactionId
      = (processPayment gw bookingId a2 m2 store).1.transactionId ∧
    (processPayment gw bookingId a1 m1 store).2
      = (processPayment gw bookingId a2 m2 store).2 := by
  cases h : gw.success <;> simp [processPayment, h]

/-- C4: against a store whose row `b` is the unique holder of
`bookingId`, `cancelBooking` succeeds — removing every row with that
primary key — exactly when the caller's `userId` equals `b.userId`;
otherwise it answers `notFound` and returns the store unchanged. -/
theorem cancelBooking_ownership (bookingId userId : String)
    (store : List BookingRec) (b : BookingRec) (hmem : b ∈ store)
    (hid : b.bookingId = bookingId)
    (huniq : ∀ x ∈ store, x.bookingId = bookingId → x = b) :
    (b.userId = userId →
      (cancelBooking bookingId userId store).1 = .ok ∧
      ∀ x ∈ (cancelBooking bookingId userId store).2,
        x.bookingId ≠ bookingId) ∧
    (b.userId ≠ userId →
      cancelBooking bookingId userId store = (.notFound, store)) := by
  constructor
  · intro hown
    cases hfind : store.find?
        (fun x => x.bookingId == bookingId && x.userId == userId) with
    | none =>
        exact absurd (by simp [hid, hown])
          (List.find?_eq_none.mp hfind b hmem)
    | some bk =>
        have hpbk := List.find?_some hfind
        have hbk : bk.bookingId = bookingId := by
          have := (Bool.and_eq_true _ _).mp hpbk
          exact beq_iff_eq.mp this.1
        unfold cancelBooking
        rw [hfind]
        refine ⟨rfl, fun x hx => ?_⟩
        have := (List.mem_filter.mp hx).2
        simp only [hbk, Bool.not_eq_true'] at this
        exact beq_eq_false_iff_ne.mp this
  · intro hne
    have hfind : store.find?
        (fun x => x.bookingId == bookingId && x.userId == userId) = none := by
      refine List.find?_eq_none.mpr (fun x hx hpx => ?_)
      have hx1 := (Bool.and_eq_true _ _).mp hpx
      have hxb : x = b := huniq x hx (beq_iff_eq.mp hx1.1)
      exact hne (by rw [← hxb]; exact beq_iff_eq.mp hx1.2)
    unfold cancelBooking
    rw [hfind]

/-- Witness for C4: a one-row store for booking "X1" owned by
"a@b.com"; the owner's cancellation succeeds while "evil@x.com"'s
attempt answers `notFound` with the row intact. -/
theorem cancelBooking_ownership_witness :
    (cancelBooking "X1" "a@b.com"
        [⟨"X1", "a@b.com", 5, 0, 3, 300, false⟩]).1 = .ok ∧
    cancelBooking "X1" "evil@x.com"
        [⟨"X1", "a@b.com", 5, 0, 3, 300, false⟩]
      = (.notFound, [⟨"X1", "a@b.com", 5, 0, 3, 300, false⟩]) :=
  ⟨((cancelBooking_ownership "X1" "a@b.com"
      [⟨"X1", "a@b.com", 5, 0, 3, 300, false⟩]
      ⟨"X1", "a@b.com", 5, 0, 3, 300, false⟩
      (by decide) rfl (by decide)).1 rfl).1,
   (cancelBooking_ownership "X1" "evil@x.com"
      [⟨"X1", "a@b.com", 5, 0, 3, 300, false⟩]
      ⟨"X1", "a@b.com", 5, 0, 3, 300, false⟩
      (by decide) rfl (by decide)).2 (by decide)⟩

/-- C7 counterexample: with `nights = 0` and empty `fullName` and
`email` — inputs the claim says must be rejected locally before any
external call — the handler still issues the inventory call, and when
that call succeeds the booking is persisted and the response is the
success payload, not a validation error. -/
theorem book_no_validation_counterexample :
    (bookOp (some ⟨"X1", 300⟩) 0 5 "" "" 0 []).inventoryCalled = true ∧
    (bookOp (some ⟨"X1", 300⟩) 0 5 "" "" 0 []).result = .ok ⟨"X1", 300⟩ ∧
    (bookOp (some ⟨"X1", 300⟩) 0 5 "" "" 0 []).store
      = [⟨"X1", "", 5, 0, 0, 300, false⟩] := by
  refine ⟨rfl, rfl, by decide⟩

/-- C7 amended: `POST /book` performs no local validation at all — for
every input, valid or not, the external inventory call is issued first;
an upstream failure is surfaced as a 500 (not a 4xx) with the store
untouched, and an upstream success with a fresh booking id is persisted
exactly as for valid inputs. -/
theorem book_forwards_inputs_unchecked (inv : Option InvResponse)
    (now roomId : Int) (fullName email : String) (nights : Int)
    (store : List BookingRec) :
    (bookOp inv now roomId fullName email nights store).inventoryCalled
      = true ∧
    (inv = none →
      bookOp inv now roomId fullName email nights store
        = ⟨.err500, store, true⟩) ∧
    (∀ resp, inv = some resp →
      store.any (fun b => b.bookingId == resp.bookingId) = false →
      (bookOp inv now roomId fullName email nights store).result
        = .ok resp) := by
  refine ⟨?_, fun h => by rw [h]; rfl, fun resp h hfresh => ?_⟩
  · cases inv with
    | none => rfl
    | some resp =>
        unfold bookOp
        by_cases hc : store.any (fun b => b.bookingId == resp.bookingId) = true
          <;> simp [hc]
  · rw [h]
    simp [bookOp, hfresh]

/-- Witness for C7's amended theorem: the invalid request
`(roomId 5, "", "", nights 0)` with a successful stub inventory call
still returns the success payload. -/
theorem book_forwards_inputs_unchecked_witness :
    ((some (⟨"X1", 300⟩ : InvResponse)) = some ⟨"X1", 300⟩) ∧
    ([] : List BookingRec).any (fun b => b.bookingId == "X1") = false ∧
    (bookOp (some ⟨"X1", 300⟩) 0 5 "" "" 0 []).result = .ok ⟨"X1", 300⟩ :=
  ⟨rfl, rfl,
    (book_forwards_inputs_unchecked (some ⟨"X1", 300⟩) 0 5 "" "" 0 []).2.2
      ⟨"X1", 300⟩ rfl rfl⟩

/-- C10: `DELETE /delete-booking/:bookingId` destroys any stored booking
given only its id — no userId is consulted — answering success and
removing every row with that primary key; and for the very same row, a
cancellation by a non-owner is refused, so the delete endpoint bypasses
the ownership check `cancelBooking` enforces. -/
theorem deleteBooking_no_ownership_check (bookingId : String)
    (store : List BookingRec) (b : BookingRec)
    (hb : findBooking bookingId store = some b) :
    (deleteBooking bookingId store).1 = .ok ∧
    (∀ x ∈ (deleteBooking bookingId store).2, x.bookingId ≠ bookingId) ∧
    (∀ caller : String, caller ≠ b.userId →
      (∀ x ∈ store, x.bookingId = bookingId → x = b) →
      cancelBooking bookingId caller store = (.notFound, store)) := by
  have hfind : store.find? (fun x => x.bookingId == bookingId) = some b := hb
  have hpb0 := List.find?_some hfind
  have hpb : b.bookingId = bookingId := beq_iff_eq.mp hpb0
  refine ⟨?_, ?_, ?_⟩
  · unfold deleteBooking
    rw [hfind]
  · intro x hx
    unfold deleteBooking at hx
    rw [hfind] at hx
    have := (List.mem_filter.mp hx).2
    simp only [hpb, Bool.not_eq_true'] at this
    exact beq_eq_false_iff_ne.mp this
  · intro caller hcaller huniq
    have hnone : store.find?
        (fun x => x.bookingId == bookingId && x.userId == caller) = none := by
      refine List.find?_eq_none.mpr (fun x hx hpx => ?_)
      have hx1 := (Bool.and_eq_true _ _).mp hpx
      have hxb : x = b := huniq x hx (beq_iff_eq.mp hx1.1)
      exact hcaller (by rw [← hxb]; exact (beq_iff_eq.mp hx1.2).symm)
    unfold cancelBooking
    rw [hnone]

/-- Witness for C10: booking "X1" owned by "a@b.com" is destroyed by the
bare delete endpoint while the stranger "evil@x.com" cannot cancel it. -/
theorem deleteBooking_no_ownership_check_witness :
    findBooking "X1" [⟨"X1", "a@b.com", 5, 0, 3, 300, false⟩]
      = some ⟨"X1", "a@b.com", 5, 0, 3, 300, false⟩ ∧
    (deleteBooking "X1" [⟨"X1", "a@b.com", 5, 0, 3, 300, false⟩]).1
      = .ok ∧
    cancelBooking "X1" "evil@x.com"
        [⟨"X1", "a@b.com", 5, 0, 3, 300, false⟩]
      = (.notFound, [⟨"X1", "a@b.com", 5, 0, 3, 300, false⟩]) :=
  ⟨by decide,
   (deleteBooking_no_ownership_check "X1"
      [⟨"X1", "a@b.com", 5, 0, 3, 300, false⟩]
      ⟨"X1", "a@b.com", 5, 0, 3, 300, false⟩ (by decide)).1,
   (deleteBooking_no_ownership_check "X1"
      [⟨"X1", "a@b.com", 5, 0, 3, 300, false⟩]
      ⟨"X1", "a@b.com", 5, 0, 3, 300, false⟩ (by decide)).2.2
     "evil@x.com" (by decide) (by decide)⟩

/-- Helper: after `conversation.update` rewrites the matching rows to the
new transcript, looking the conversation up again yields the new
transcript (provided a matching row existed). -/
theorem find_update_messages (userId : String) (new : List Turn)
    (convs : List Conv)
    (h : convs.any (fun c => c.userId == userId) = true) :
    (convs.map (fun c =>
        if c.userId == userId then Conv.mk c.userId new else c)).find?
      (fun c => c.userId == userId) = some (Conv.mk userId new) := by
  induction convs with
  | nil => simp at h
  | cons c rest ih =>
      by_cases hc : (c.userId == userId) = true
      · have hceq : c.userId = userId := beq_iff_eq.mp hc
        simp [List.find?_cons, hc, hceq]
      · have hc' : (c.userId == userId) = false := by
          cases hcv : c.userId == userId
          · rfl
          · exact absurd hcv hc
        simp only [List.any_cons, hc', Bool.false_or] at h
        simp only [List.map_cons, hc', Bool.false_eq_true, if_false]
        rw [List.find?_cons_of_neg _ (by simp [hc'])]
        exact ih h

/-- Helper: appending a fresh conversation row at the end and then
looking the user up finds that row, when no earlier row matches. -/
theorem find_append_fresh (userId : String) (c : Conv) (convs : List Conv)
    (h : convs.any (fun d => d.userId == userId) = false)
    (hc : (c.userId == userId) = true) :
    (convs ++ [c]).find? (fun d => d.userId == userId) = some c := by
  induction convs with
  | nil => simp [List.find?_cons, hc]
  | cons a rest ih =>
      simp only [List.any_cons, Bool.or_eq_false_iff] at h
      simp only [List.cons_append]
      rw [List.find?_cons_of_neg _ (by simp [h.1])]
      exact ih h.2

/-- Helper: one successful `POST /chat` turn extends the persisted
transcript by exactly the user turn and the reply turn, the latter stored
with role "system". -/
theorem handleTurn_transcript (now : Int) (r userId message : String)
    (st : ChatState) (h : userId ≠ "") :
    transcriptOf userId (handleTurn now (some r) userId message st).2 =
      transcriptOf userId st ++ [⟨"user", message⟩, ⟨"system", r⟩] := by
  have h0 : (userId == "") = false := beq_eq_false_iff_ne.mpr h
  unfold handleTurn transcriptOf
  simp only [h0, Bool.false_eq_true, if_false]
  by_cases hc : st.convs.any (fun c => c.userId == userId) = true
  · simp only [hc, if_true]
    rw [find_update_messages userId _ st.convs hc]
    simp
  · have hc' : st.convs.any (fun c => c.userId == userId) = false := by
      cases hcv : st.convs.any (fun c => c.userId == userId)
      · rfl
      · exact absurd hcv hc
    have hnone : st.convs.find? (fun c => c.userId == userId) = none := by
      refine List.find?_eq_none.mpr (fun x hx hpx => ?_)
      have hany : st.convs.any (fun c => c.userId == userId) = true := by
        rw [List.any_eq_true]
        exact ⟨x, hx, hpx⟩
      rw [hc'] at hany
      cases hany
    simp only [hc', Bool.false_eq_true, if_false]
    rw [find_update_messages userId _ (st.convs ++ [Conv.mk userId []])
        (by simp [List.any_append])]
    rw [find_append_fresh userId (Conv.mk userId []) st.convs hc' (by simp)]
    simp [hnone]

/-- C5 counterexample: one successful chat turn from the empty state
persists the pair `[(user, "hi"), (system, "hello")]` — the reply turn's
role is the literal "system", which is none of the roles the claim allows
(user, assistant, system-function-result), so the transcript is not made
of user+assistant pairs. -/
theorem chat_reply_role_is_system :
    transcriptOf "u1" (handleTurn 0 (some "hello") "u1" "hi" ⟨[], []⟩).2
      = [⟨"user", "hi"⟩, ⟨"system", "hello"⟩] ∧
    ∃ t ∈ transcriptOf "u1"
        (handleTurn 0 (some "hello") "u1" "hi" ⟨[], []⟩).2,
      t.role ≠ "user" ∧ t.role ≠ "assistant"
        ∧ t.role ≠ "system-function-result" := by
  decide

/-- C5 amended: running `handleTurn` sequentially over N
(message, reply) pairs, every run succeeding, appends to the persisted
transcript exactly the N pairs in call order — each pair a "user" turn
followed by the reply stored as a "system" turn (not "assistant") — so
from an empty transcript the length is exactly 2N, and each stored
transcript extends the previous one. -/
theorem chat_transcripts_append_pairs (userId : String) (h : userId ≠ "")
    (turns : List (String × String)) (now : Int) (st : ChatState) :
    transcriptOf userId (runChats userId turns now st) =
      transcriptOf userId st ++
        turns.flatMap (fun p => [⟨"user", p.1⟩, ⟨"system", p.2⟩]) ∧
    (transcriptOf userId (runChats userId turns now st)).length =
      (transcriptOf userId st).length + 2 * turns.length := by
  induction turns generalizing now st with
  | nil => simp [runChats]
  | cons p rest ih =>
      obtain ⟨msg, r⟩ := p
      have hstep := handleTurn_transcript now r userId msg st h
      have hrec := ih (now + 1) (handleTurn now (some r) userId msg st).2
      constructor
      · rw [show runChats userId ((msg, r) :: rest) now st =
            runChats userId rest (now + 1)
              (handleTurn now (some r) userId msg st).2 from rfl]
        rw [hrec.1, hstep]
        simp
      · rw [show runChats userId ((msg, r) :: rest) now st =
            runChats userId rest (now + 1)
              (handleTurn now (some r) userId msg st).2 from rfl]
        rw [hrec.2, hstep]
        simp
        omega

/-- Witness for C5's amended theorem: two successful turns for "u1" from
the empty state persist exactly the four turns in call order. -/
theorem chat_transcripts_append_pairs_witness :
    ("u1" : String) ≠ "" ∧
    transcriptOf "u1"
        (runChats "u1" [("hi", "hello"), ("rooms?", "Here")] 0 ⟨[], []⟩)
      = [⟨"user", "hi"⟩, ⟨"system", "hello"⟩,
         ⟨"user", "rooms?"⟩, ⟨"system", "Here"⟩] := by
  refine ⟨by decide, ?_⟩
  rw [(chat_transcripts_append_pairs "u1" (by decide)
    [("hi", "hello"), ("rooms?", "Here")] 0 ⟨[], []⟩).1]
  rfl

end Bot
